import Mathlib

/-!
Shallow embedding of the novel-dev writing system (src/src/core and
src/src/agents) and proofs about its specification claims.

Modelling conventions:
* Python objects parsed from / dumped to JSON files are modelled by the
  `Json` inductive below; `json.dump`/`json.load` of a value is treated as
  the identity on that value (the byte-level JSON grammar belongs to the
  external json library, which the spec excludes).
* `json.loads` applied to raw model responses is kept abstract as a
  parameter `parse : String → Option Json`.
* The external generator (`LLMInterface.generate`) is kept abstract as a
  parameter `gen : String → String → Option Int → String` taking the
  prompt, the system prompt and the max-token budget; the float-valued
  temperature option does not influence any modelled result and is dropped.
* Python exceptions are modelled by `Option`/`Except Err` results.
* Python dicts are modelled as insertion-ordered association lists.
-/

/-- JSON values, as produced by `json.load` / consumed by `json.dump`. -/
inductive Json where
  | null : Json
  | bool : Bool → Json
  | int : Int → Json
  | str : String → Json
  | arr : List Json → Json
  | obj : List (String × Json) → Json
deriving Repr, Inhabited

/-- Python `d[key]` on a dict: the value of the first matching key. -/
def getField : List (String × Json) → String → Option Json
  | [], _ => none
  | (k, v) :: rest, key => if k = key then some v else getField rest key

/-- Python `d[key] = v` on an insertion-ordered dict: overwrite in place if
the key exists, otherwise append. -/
def alInsert : List (String × String) → String → String → List (String × String)
  | [], key, val => [(key, val)]
  | (k, v) :: rest, key, val =>
    if k = key then (k, val) :: rest else (k, v) :: alInsert rest key val

/-- Python `d.get(key, default)`. -/
def alGetD : List (String × String) → String → String → String
  | [], _, d => d
  | (k, v) :: rest, key, d => if k = key then v else alGetD rest key d

/-- Python `str.lower()` (ASCII behaviour). -/
def pyLower (s : String) : String := s.map Char.toLower

/-- Python `text[:n]` on a string (slice of the first `n` code points). -/
def pyTake (s : String) (n : Nat) : String := String.mk (s.toList.take n)

/-- Python `text[a:b]` on a string (with non-negative bounds). -/
def pySlice (s : String) (a b : Nat) : String := String.mk ((s.toList.take b).drop a)

/-- Python `str.split()` with no argument: split on whitespace runs,
dropping empty pieces (used only for word counts). -/
def pySplit (s : String) : List String :=
  (s.split Char.isWhitespace).filter (fun p => p ≠ "")

/-- Python `str.strip()` with no argument: drop leading and trailing
whitespace. -/
def pyStrip (s : String) : String :=
  String.mk (((s.toList.dropWhile Char.isWhitespace).reverse.dropWhile
    Char.isWhitespace).reverse)

/-- Auxiliary index search over characters. -/
def findIdxFrom (c : Char) : List Char → Nat → Option Nat
  | [], _ => none
  | x :: xs, n => if x = c then some n else findIdxFrom c xs (n + 1)

/-- Python `str.find(c)`: index of the first occurrence, `none` for `-1`. -/
def strFind (s : String) (c : Char) : Option Nat := findIdxFrom c s.toList 0

/-- Python `str.rfind(c)`: index of the last occurrence, `none` for `-1`. -/
def strRFind (s : String) (c : Char) : Option Nat :=
  match findIdxFrom c s.toList.reverse 0 with
  | none => none
  | some i => some (s.toList.length - 1 - i)

/-- Python `needle in hay` on strings (substring containment). -/
def containsSub (hay needle : List Char) : Bool :=
  (List.range (hay.length + 1)).any (fun i => needle.isPrefixOf (hay.drop i))

/-- Python `str(x)` on a value parsed from JSON, as interpolated into an
f-string. Container renderings approximate Python repr. -/
def pyStr : Json → String
  | .null => "None"
  | .bool b => if b then "True" else "False"
  | .int n => toString n
  | .str s => s
  | .arr _ => "[...]"
  | .obj _ => "\x7b...\x7d"

/-- Approximate Python repr of a `Dict[str, str]` as interpolated into an
f-string (quote escaping inside entries is not reproduced). -/
def pyReprStrDict (xs : List (String × String)) : String :=
  "\x7b" ++ String.intercalate ", "
    (xs.map (fun p => "\x27" ++ p.1 ++ "\x27: \x27" ++ p.2 ++ "\x27")) ++ "\x7d"

mutual

/-- Rendering of a JSON value to text, standing in for `json.dumps`
(indentation formatting of the Python original is not reproduced; the
rendered text only ever flows into opaque generation prompts). -/
def dumpJson : Json → String
  | .null => "null"
  | .bool b => if b then "true" else "false"
  | .int n => toString n
  | .str s => "\x22" ++ s ++ "\x22"
  | .arr xs => "[" ++ String.intercalate ", " (dumpJsonList xs) ++ "]"
  | .obj fs => "\x7b" ++ String.intercalate ", " (dumpJsonObj fs) ++ "\x7d"

/-- Renders the elements of a JSON array. -/
def dumpJsonList : List Json → List String
  | [] => []
  | x :: xs => dumpJson x :: dumpJsonList xs

/-- Renders the fields of a JSON object. -/
def dumpJsonObj : List (String × Json) → List String
  | [] => []
  | (k, v) :: fs => ("\x22" ++ k ++ "\x22: " ++ dumpJson v) :: dumpJsonObj fs

end

/-! ## Data model (src/src/core/models.py) -/

/-- `models.Chapter`. -/
structure Chapter where
  title : String
  summary : String
  key_events : List String
  characters_involved : List String
  word_count_target : Int
  content : Option String := none
deriving Repr, DecidableEq, Inhabited

/-- `models.StoryOutline`. `main_characters` entries are loosely structured
`Dict[str, Any]` values, kept as raw JSON objects. -/
structure StoryOutline where
  title : String
  premise : String
  theme : String
  main_characters : List (List (String × Json))
  setting : String
  chapters : List Chapter
  total_word_count : Int
  genre : String
deriving Repr, Inhabited

/-- `models.WritingSession`. -/
structure WritingSession where
  chapter_index : Nat
  content_written : String
  word_count : Nat
  timestamp : String
  critique_notes : Option String := none
deriving Repr, DecidableEq, Inhabited

/-- `models.StoryContext`. The chapter cursor is a list index and is
modelled as a `Nat`. Dict fields are insertion-ordered association lists. -/
structure StoryContext where
  outline : StoryOutline
  completed_chapters : List String := []
  current_chapter : Nat := 0
  character_arcs : List (String × String) := []
  plot_threads : List (String × String) := []
  world_building_notes : List (String × String) := []
  style_notes : String := ""
deriving Repr, Inhabited

/-- `models.CritiqueResult` (scores are pydantic-validated to 1..10). -/
structure CritiqueResult where
  overall_score : Int
  strengths : List String
  weaknesses : List String
  suggestions : List String
  continuity_issues : List String := []
  character_consistency : Int
  plot_coherence : Int
deriving Repr, DecidableEq, Inhabited

/-! ## Serialization: pydantic `model_dump` of each model -/

/-- `Chapter.model_dump()`. -/
def encodeChapter (c : Chapter) : Json :=
  .obj [("title", .str c.title), ("summary", .str c.summary),
        ("key_events", .arr (c.key_events.map .str)),
        ("characters_involved", .arr (c.characters_involved.map .str)),
        ("word_count_target", .int c.word_count_target),
        ("content", match c.content with | some s => .str s | none => .null)]

/-- `StoryOutline.model_dump()`. -/
def encodeStoryOutline (o : StoryOutline) : Json :=
  .obj [("title", .str o.title), ("premise", .str o.premise),
        ("theme", .str o.theme),
        ("main_characters", .arr (o.main_characters.map .obj)),
        ("setting", .str o.setting),
        ("chapters", .arr (o.chapters.map encodeChapter)),
        ("total_word_count", .int o.total_word_count),
        ("genre", .str o.genre)]

/-- `WritingSession.model_dump()`. -/
def encodeWritingSession (s : WritingSession) : Json :=
  .obj [("chapter_index", .int s.chapter_index),
        ("content_written", .str s.content_written),
        ("word_count", .int s.word_count),
        ("timestamp", .str s.timestamp),
        ("critique_notes", match s.critique_notes with
          | some t => .str t | none => .null)]

/-- `StoryContext.model_dump()`. -/
def encodeStoryContext (c : StoryContext) : Json :=
  .obj [("outline", encodeStoryOutline c.outline),
        ("completed_chapters", .arr (c.completed_chapters.map .str)),
        ("current_chapter", .int c.current_chapter),
        ("character_arcs", .obj (c.character_arcs.map (fun p => (p.1, .str p.2)))),
        ("plot_threads", .obj (c.plot_threads.map (fun p => (p.1, .str p.2)))),
        ("world_building_notes",
          .obj (c.world_building_notes.map (fun p => (p.1, .str p.2)))),
        ("style_notes", .str c.style_notes)]

/-! ## Validation: pydantic model construction from parsed JSON -/

/-- Monadic map over `Option`, written out so proofs can unfold it
directly (models pydantic validating each element of a list field). -/
def optMapM (f : α → Option β) : List α → Option (List β)
  | [] => some []
  | x :: xs =>
    match f x with
    | none => none
    | some y =>
      match optMapM f xs with
      | none => none
      | some ys => some (y :: ys)

/-- Validate a `str` field. -/
def asStr : Json → Option String
  | .str s => some s
  | _ => none

/-- Validate an `int` field. -/
def asInt : Json → Option Int
  | .int n => some n
  | _ => none

/-- Validate a non-negative `int` field used as a list index
(the cursor and session chapter index are modelled as `Nat`). -/
def asNat : Json → Option Nat
  | .int n => if 0 ≤ n then some n.toNat else none
  | _ => none

/-- Validate a `List[str]` field. -/
def asStrList : Json → Option (List String)
  | .arr xs => optMapM asStr xs
  | _ => none

/-- Validate a `Dict[str, str]` field. -/
def asStrDict : Json → Option (List (String × String))
  | .obj fs => optMapM (fun p => (asStr p.2).map (fun v => (p.1, v))) fs
  | _ => none

/-- Validate an `Optional[str]` field. -/
def asOptStr : Json → Option (Option String)
  | .null => some none
  | .str s => some (some s)
  | _ => none

/-- Validate a `List[Dict[str, Any]]` field. -/
def asObjList : Json → Option (List (List (String × Json)))
  | .arr xs => optMapM (fun j => match j with | .obj fs => some fs | _ => none) xs
  | _ => none

/-- An optional field with a default: absent means the default, present
values must validate. -/
def fieldD (fs : List (String × Json)) (key : String) (f : Json → Option α)
    (d : α) : Option α :=
  match getField fs key with
  | none => some d
  | some j => f j

/-- A required field. -/
def fieldR (fs : List (String × Json)) (key : String) (f : Json → Option α) :
    Option α :=
  match getField fs key with
  | none => none
  | some j => f j

/-- `Chapter(**data)` validation. -/
def decodeChapter (j : Json) : Option Chapter :=
  match j with
  | .obj fs => do
    let title ← fieldR fs "title" asStr
    let summary ← fieldR fs "summary" asStr
    let key_events ← fieldR fs "key_events" asStrList
    let characters_involved ← fieldR fs "characters_involved" asStrList
    let word_count_target ← fieldR fs "word_count_target" asInt
    let content ← fieldD fs "content" asOptStr none
    some ⟨title, summary, key_events, characters_involved, word_count_target,
          content⟩
  | _ => none

/-- `StoryOutline(**data)` validation. -/
def decodeStoryOutline (j : Json) : Option StoryOutline :=
  match j with
  | .obj fs => do
    let title ← fieldR fs "title" asStr
    let premise ← fieldR fs "premise" asStr
    let theme ← fieldR fs "theme" asStr
    let main_characters ← fieldR fs "main_characters" asObjList
    let setting ← fieldR fs "setting" asStr
    let chapters ← fieldR fs "chapters"
      (fun | .arr xs => optMapM decodeChapter xs | _ => none)
    let total_word_count ← fieldR fs "total_word_count" asInt
    let genre ← fieldR fs "genre" asStr
    some ⟨title, premise, theme, main_characters, setting, chapters,
          total_word_count, genre⟩
  | _ => none

/-- `StoryContext(**data)` validation. -/
def decodeStoryContext (j : Json) : Option StoryContext :=
  match j with
  | .obj fs => do
    let outline ← fieldR fs "outline" decodeStoryOutline
    let completed_chapters ← fieldD fs "completed_chapters" asStrList []
    let current_chapter ← fieldD fs "current_chapter" asNat 0
    let character_arcs ← fieldD fs "character_arcs" asStrDict []
    let plot_threads ← fieldD fs "plot_threads" asStrDict []
    let world_building_notes ← fieldD fs "world_building_notes" asStrDict []
    let style_notes ← fieldD fs "style_notes" asStr ""
    some ⟨outline, completed_chapters, current_chapter, character_arcs,
          plot_threads, world_building_notes, style_notes⟩
  | _ => none

/-! ## Round-trip lemmas -/

theorem optMapM_asStr (l : List String) :
    optMapM asStr (l.map .str) = some l := by
  induction l with
  | nil => rfl
  | cons x xs ih => simp [optMapM, asStr, ih]

theorem asStrList_encode (l : List String) :
    asStrList (.arr (l.map .str)) = some l := by
  simp [asStrList, optMapM_asStr]

theorem asStrDict_encode (l : List (String × String)) :
    asStrDict (.obj (l.map (fun p => (p.1, .str p.2)))) = some l := by
  induction l with
  | nil => rfl
  | cons x xs ih =>
    simp only [asStrDict, List.map_cons, optMapM, asStr] at ih ⊢
    simp_all

theorem asObjList_encode (l : List (List (String × Json))) :
    asObjList (.arr (l.map .obj)) = some l := by
  induction l with
  | nil => rfl
  | cons x xs ih =>
    simp only [asObjList, List.map_cons, optMapM] at ih ⊢
    rw [ih]

theorem decodeChapter_encode (c : Chapter) :
    decodeChapter (encodeChapter c) = some c := by
  cases c with
  | mk title summary ke ci wct content =>
    cases content <;>
      simp [decodeChapter, encodeChapter, fieldR, fieldD, getField, asStr,
        asInt, asOptStr, asStrList_encode]

theorem decodeChapters_encode (l : List Chapter) :
    optMapM decodeChapter (l.map encodeChapter) = some l := by
  induction l with
  | nil => rfl
  | cons x xs ih => simp only [List.map_cons, optMapM, decodeChapter_encode, ih]

theorem decodeStoryOutline_encode (o : StoryOutline) :
    decodeStoryOutline (encodeStoryOutline o) = some o := by
  cases o with
  | mk title premise theme mc setting chapters twc genre =>
    simp only [decodeStoryOutline, encodeStoryOutline, fieldR, getField]
    simp [asStr, asInt, asObjList_encode, decodeChapters_encode]

theorem decodeStoryContext_encode (c : StoryContext) :
    decodeStoryContext (encodeStoryContext c) = some c := by
  cases c with
  | mk outline cc cur ca pt wbn sn =>
    simp only [decodeStoryContext, encodeStoryContext, fieldR, fieldD, getField]
    simp [asStr, asNat, asStrList_encode, asStrDict_encode,
      decodeStoryOutline_encode]

/-! ## Errors and the durable store -/

/-- Python exceptions raised by the embedded operations. -/
inductive Err where
  | valueError (msg : String)
  | keyError (key : String)
  | indexError
  | typeError
  | validationError
  | noActiveProject
  | parseError
deriving Repr, DecidableEq, Inhabited

/-- The project directory: `story_context.json` and
`writing_sessions.json`, each `none` when the file does not exist.  File
contents are held as the JSON values that `json.dump` wrote. -/
structure Store where
  context_file : Option Json := none
  sessions_file : Option Json := none
deriving Repr, Inhabited

namespace ContextManager

/-- `ContextManager.save_context`: whole-state overwrite of the context
file with the dumped context. -/
def save_context (context : StoryContext) (st : Store) : Store :=
  { st with context_file := some (encodeStoryContext context) }

/-- `ContextManager.load_context`: `.ok none` when the file is absent,
`.error` when the stored JSON fails `StoryContext(**data)` validation. -/
def load_context (st : Store) : Except Err (Option StoryContext) :=
  match st.context_file with
  | none => .ok none
  | some j =>
    match decodeStoryContext j with
    | none => .error .validationError
    | some ctx => .ok (some ctx)

/-- `ContextManager.load_sessions`: `[]` when the file is absent.  A
stored value that is not a JSON list makes the subsequent `append` in
`save_session` fail; that shape check is folded in here. -/
def load_sessions (st : Store) : Except Err (List Json) :=
  match st.sessions_file with
  | none => .ok []
  | some (.arr xs) => .ok xs
  | some _ => .error .typeError

/-- `ContextManager.save_session`: append one dumped session record. -/
def save_session (session : WritingSession) (st : Store) : Except Err Store :=
  match load_sessions st with
  | .error e => .error e
  | .ok sessions =>
    .ok { st with
          sessions_file := some (.arr (sessions ++ [encodeWritingSession session])) }

/-- `ContextManager.get_recent_content`: the `"\n\n"`-join of the slice
`completed_chapters[max(0, current_chapter - num_chapters):current_chapter]`
of the freshly loaded context, or `""` when no context exists. -/
def get_recent_content (st : Store) (num_chapters : Nat) : Except Err String :=
  match load_context st with
  | .error e => .error e
  | .ok none => .ok ""
  | .ok (some context) =>
    let start_idx := context.current_chapter - num_chapters
    let recent_chapters :=
      (context.completed_chapters.take context.current_chapter).drop start_idx
    .ok (String.intercalate "\n\n" recent_chapters)

/-- One line of `ContextManager.get_character_summary` for one
`main_characters` entry (a raw JSON object). -/
def characterSummaryLine (context : StoryContext)
    (char : List (String × Json)) : Except Err String :=
  match getField char "name" with
  | none => .error (.keyError "name")
  | some nameJ =>
    match getField char "role" with
    | none => .error (.keyError "role")
    | some roleJ =>
      match getField char "description" with
      | none => .error (.keyError "description")
      | some descJ =>
        let arc := match nameJ with
          | .str s => alGetD context.character_arcs s "No arc updates"
          | _ => "No arc updates"
        .ok (pyStr nameJ ++ " (" ++ pyStr roleJ ++ "): " ++ pyStr descJ ++
          "\nCurrent Arc: " ++ arc)

/-- Except-valued map used to model loops whose bodies may raise. -/
def exMapM (f : α → Except Err β) : List α → Except Err (List β)
  | [] => .ok []
  | x :: xs =>
    match f x with
    | .error e => .error e
    | .ok y =>
      match exMapM f xs with
      | .error e => .error e
      | .ok ys => .ok (y :: ys)

/-- `ContextManager.get_character_summary`. -/
def get_character_summary (st : Store) : Except Err String :=
  match load_context st with
  | .error e => .error e
  | .ok none => .ok ""
  | .ok (some context) =>
    match exMapM (characterSummaryLine context) context.outline.main_characters with
    | .error e => .error e
    | .ok lines => .ok (String.intercalate "\n\n" lines)

/-- `ContextManager.get_plot_summary`. -/
def get_plot_summary (st : Store) : Except Err String :=
  match load_context st with
  | .error e => .error e
  | .ok none => .ok ""
  | .ok (some context) =>
    .ok (String.intercalate "\n"
      (("Theme: " ++ context.outline.theme) ::
       ("Setting: " ++ context.outline.setting) ::
       context.plot_threads.map (fun p => p.1 ++ ": " ++ p.2)))

/-- The metadata header written by `ContextManager.export_manuscript`. -/
def exportHeader (context : StoryContext) : String :=
  "# " ++ context.outline.title ++ "\n\n" ++
  "**Genre:** " ++ context.outline.genre ++ "\n" ++
  "**Premise:** " ++ context.outline.premise ++ "\n" ++
  "**Theme:** " ++ context.outline.theme ++ "\n\n" ++
  "---\n\n"

/-- One chapter section written by `ContextManager.export_manuscript`. -/
def exportBlock (i : Nat) (title content : String) : String :=
  "## Chapter " ++ toString (i + 1) ++ ": " ++ title ++ "\n\n" ++
  content ++ "\n\n---\n\n"

/-- The chapter loop of `export_manuscript`: sequential `f.write` calls,
accumulated into the written text; `none` models the `IndexError` raised
by `outline.chapters[i]` (the partially written file is not modelled). -/
def exportChapters (chapters : List Chapter) :
    List (Nat × String) → String → Option String
  | [], acc => some acc
  | (i, content) :: rest, acc =>
    match chapters.get? i with
    | none => none
    | some chapter =>
      exportChapters chapters rest (acc ++ exportBlock i chapter.title content)

/-- `ContextManager.export_manuscript`: `.ok none` when no context exists
(nothing written), otherwise the full rendered document. -/
def export_manuscript (st : Store) : Except Err (Option String) :=
  match load_context st with
  | .error e => .error e
  | .ok none => .ok none
  | .ok (some context) =>
    match exportChapters context.outline.chapters
        context.completed_chapters.enum (exportHeader context) with
    | none => .error .indexError
    | some doc => .ok (some doc)

end ContextManager

/-! ## LLM interface (src/src/core/llm_interface.py) -/

/-- The abstract generator: prompt, system prompt, max-token budget to
response text (`LLMInterface.generate`, kept opaque). -/
def Gen : Type := String → String → Option Int → String

/-- The abstract `json.loads` on raw response text. -/
def Parse : Type := String → Option Json

namespace LLMInterface

/-- `LLMInterface._extract_json`: strip, then take the substring from the
first brace to the last closing brace; `ValueError` when either brace is
absent. -/
def extract_json (text : String) : Except Err String :=
  let t := pyStrip text
  match strFind t '\x7b', strRFind t '\x7d' with
  | some start_idx, some end_idx => .ok (pySlice t start_idx (end_idx + 1))
  | _, _ => .error (.valueError "No valid JSON found in response")

/-- The response-parsing stage of `LLMInterface.generate_structured`:
direct parse of the stripped response, then the `_extract_json` retry,
then failure. -/
def parse_structured (parse : Parse) (response : String) : Except Err Json :=
  match parse (pyStrip response) with
  | some parsed => .ok parsed
  | none =>
    match extract_json response with
    | .error _ => .error .parseError
    | .ok cleaned =>
      match parse cleaned with
      | some parsed => .ok parsed
      | none => .error .parseError

/-- The fixed instruction appended to the system prompt by
`generate_structured`. -/
def jsonOnlyInstruction : String :=
  "IMPORTANT: Your response must be valid JSON only, no additional text."

/-- `LLMInterface.generate_structured`: build the schema-bearing prompt,
make one generation call, then run the parsing pipeline. -/
def generate_structured (parse : Parse) (gen : Gen) (prompt : String)
    (schema : Json) (system_prompt : Option String) : Except Err Json :=
  let json_prompt := prompt ++
    "\n\nRespond with valid JSON matching this schema:\n" ++ dumpJson schema
  let full_system := match system_prompt with
    | some s => if s = "" then jsonOnlyInstruction
                else s ++ "\n\n" ++ jsonOnlyInstruction
    | none => jsonOnlyInstruction
  parse_structured parse (gen json_prompt full_system none)

end LLMInterface

/-! ## Writing engine (src/src/agents/writing_engine.py) -/

namespace WritingEngine

/-- The system prompt of `WritingEngine.write_chapter`. -/
def writeChapterSystemPrompt : String :=
  "You are a professional novelist. Write engaging, well-crafted prose\n" ++
  "that maintains consistency with the established story, characters, and world.\n\n" ++
  "Key guidelines:\n" ++
  "- Maintain character voice and personality\n" ++
  "- Follow the established writing style\n" ++
  "- Ensure plot coherence with previous chapters\n" ++
  "- Write vivid, immersive scenes\n" ++
  "- Show don\x27t tell\n" ++
  "- Use appropriate pacing for the genre\n" ++
  "- Include dialogue that advances plot and character development"

/-- The two `prompt_parts` lines contributed by one `main_characters`
entry in `_build_writing_prompt`. -/
def writingCharLines (context : StoryContext) (char : List (String × Json)) :
    Except Err (List String) :=
  match getField char "name" with
  | none => .error (.keyError "name")
  | some nameJ =>
    let arc_status := match nameJ with
      | .str s => alGetD context.character_arcs s "Beginning of arc"
      | _ => "Beginning of arc"
    match getField char "role" with
    | none => .error (.keyError "role")
    | some roleJ =>
      match getField char "description" with
      | none => .error (.keyError "description")
      | some descJ =>
        .ok ["- " ++ pyStr nameJ ++ " (" ++ pyStr roleJ ++ "): " ++ pyStr descJ,
             "  Current Arc Status: " ++ arc_status]

/-- `WritingEngine._build_writing_prompt`. -/
def build_writing_prompt (chapter : Chapter) (context : StoryContext)
    (additional_instructions : Option String) (st : Store) :
    Except Err String :=
  let base :=
    ["Write Chapter " ++ toString (context.current_chapter + 1) ++ ": " ++
       chapter.title,
     "\nChapter Summary: " ++ chapter.summary,
     "\nKey Events to Include: " ++ String.intercalate ", " chapter.key_events,
     "\nCharacters Involved: " ++
       String.intercalate ", " chapter.characters_involved,
     "\nTarget Word Count: " ++ toString chapter.word_count_target,
     "\n\nStory Context:",
     "Title: " ++ context.outline.title,
     "Genre: " ++ context.outline.genre,
     "Theme: " ++ context.outline.theme,
     "Setting: " ++ context.outline.setting]
  let base := base ++
    (if context.style_notes ≠ "" then ["\nStyle Notes: " ++ context.style_notes]
     else [])
  match ContextManager.exMapM (writingCharLines context)
      context.outline.main_characters with
  | .error e => .error e
  | .ok charLines =>
    let base := base ++ ["\nMain Characters:"] ++ charLines.flatten
    let base := base ++
      (if context.plot_threads ≠ [] then
        "\nActive Plot Threads:" ::
          context.plot_threads.map (fun p => "- " ++ p.1 ++ ": " ++ p.2)
       else [])
    let base := base ++
      (if context.world_building_notes ≠ [] then
        "\nWorld Building Notes:" ::
          context.world_building_notes.map (fun p => "- " ++ p.1 ++ ": " ++ p.2)
       else [])
    match ContextManager.get_recent_content st 2 with
    | .error e => .error e
    | .ok recent_content =>
      let base := base ++
        (if recent_content ≠ "" then
          ["\nRecent Chapter Content (for continuity):",
           pyTake recent_content 2000]
         else [])
      let base := base ++
        (match additional_instructions with
         | some ai => ["\nAdditional Instructions: " ++ ai]
         | none => [])
      .ok (String.intercalate "\n" (base ++ ["\nNow write the full chapter content:"]))

/-- `WritingEngine.write_chapter`: range check, one generation call with a
`1.5 × word_count_target` token budget, append one session record, return
the content.  The second component counts generation calls made. -/
def write_chapter (gen : Gen) (chapter_index : Nat) (context : StoryContext)
    (additional_instructions : Option String) (now : String) (st : Store) :
    Except Err (String × Store) × Nat :=
  if context.outline.chapters.length ≤ chapter_index then
    (.error (.valueError "Chapter index out of range"), 0)
  else
    match context.outline.chapters.get? chapter_index with
    | none => (.error .indexError, 0)
    | some chapter =>
      match build_writing_prompt chapter context additional_instructions st with
      | .error e => (.error e, 0)
      | .ok writing_prompt =>
        let content := gen writing_prompt writeChapterSystemPrompt
          (some ((3 * chapter.word_count_target).tdiv 2))
        let session : WritingSession :=
          { chapter_index := chapter_index, content_written := content,
            word_count := (pySplit content).length, timestamp := now }
        match ContextManager.save_session session st with
        | .error e => (.error e, 1)
        | .ok st2 => (.ok (content, st2), 1)

/-- The system prompt of `WritingEngine.continue_chapter`. -/
def continueSystemPrompt : String :=
  "Continue writing this chapter seamlessly. Maintain the same voice,\n" ++
  "style, and pacing. Pick up exactly where the previous content left off."

/-- `WritingEngine.continue_chapter`: one generation call; the result is
the existing content, a blank-line separator, and the new continuation. -/
def continue_chapter (gen : Gen) (chapter_index : Nat)
    (existing_content : String) (context : StoryContext)
    (continuation_note : String) : Option String :=
  match context.outline.chapters.get? chapter_index with
  | none => none
  | some chapter =>
    let continuation_prompt :=
      "\nContinue writing this chapter:\n\nChapter: " ++ chapter.title ++
      "\nChapter Summary: " ++ chapter.summary ++
      "\nKey Events Still Needed: " ++
        String.intercalate ", " chapter.key_events ++
      "\n\nExisting Content:\n" ++ existing_content ++
      "\n\n" ++ continuation_note ++
      "\n\nContinue the chapter, picking up seamlessly from where it left off." ++
      "\nTarget another " ++
        toString (chapter.word_count_target -
          ((pySplit existing_content).length : Int)) ++
      " words approximately.\n"
    let continuation := gen continuation_prompt continueSystemPrompt none
    some (existing_content ++ "\n\n" ++ continuation)

/-- The system prompt of `WritingEngine._update_character_arcs`. -/
def arcSystemPrompt : String :=
  "Analyze this chapter content and update character arcs based on\n" ++
  "their development, decisions, and growth shown in the chapter."

/-- Python membership test `char_name in [c["name"] for c in main_characters]`:
string equality against whatever JSON value the `name` field holds. -/
def nameMatches (char_name : String) : Json → Bool
  | .str s => s = char_name
  | _ => false

/-- The `[c["name"] for c in context.outline.main_characters]`
comprehension; `KeyError` when an entry has no `name`. -/
def mainNames (outline : StoryOutline) : Except Err (List Json) :=
  ContextManager.exMapM
    (fun char => match getField char "name" with
      | none => .error (.keyError "name")
      | some j => .ok j)
    outline.main_characters

/-- One iteration of the `_update_character_arcs` loop: main characters
involved in the chapter get their arc entry overwritten with a fresh
generation. -/
def updateArcStep (gen : Gen) (content : String) (context : StoryContext)
    (char_name : String) : Except Err StoryContext :=
  match mainNames context.outline with
  | .error e => .error e
  | .ok names =>
    if names.any (nameMatches char_name) then
      let prompt :=
        "\nCharacter: " ++ char_name ++
        "\nPrevious Arc Status: " ++
          alGetD context.character_arcs char_name "Beginning" ++
        "\nChapter Content: " ++ pyTake content 1500 ++
        "\n\nProvide a brief update on this character\x27s arc development in this chapter.\n"
      let arc_update := gen prompt arcSystemPrompt none
      .ok { context with
            character_arcs := alInsert context.character_arcs char_name arc_update }
    else .ok context

/-- Except-valued fold used to model stateful loops. -/
def exFoldlM (f : σ → α → Except Err σ) : σ → List α → Except Err σ
  | s, [] => .ok s
  | s, x :: xs =>
    match f s x with
    | .error e => .error e
    | .ok s2 => exFoldlM f s2 xs

/-- `WritingEngine._update_character_arcs`. -/
def update_character_arcs (gen : Gen) (chapter_index : Nat) (content : String)
    (context : StoryContext) : Except Err StoryContext :=
  match context.outline.chapters.get? chapter_index with
  | none => .error .indexError
  | some chapter =>
    exFoldlM (updateArcStep gen content) context chapter.characters_involved

/-- The system prompt of `WritingEngine._update_plot_threads`. -/
def threadSystemPrompt : String :=
  "Analyze this chapter and update the status of relevant plot threads\n" ++
  "based on how they advanced or resolved."

/-- `WritingEngine._update_plot_threads`: one generation call when any
plot threads exist, then the coarse case-insensitive substring-match
update over the snapshot of thread names. -/
def update_plot_threads (gen : Gen) (chapter_index : Nat) (content : String)
    (context : StoryContext) : StoryContext :=
  if context.plot_threads = [] then context
  else
    let prompt :=
      "\nChapter " ++ toString (chapter_index + 1) ++ " Content: " ++
        pyTake content 1500 ++
      "\nCurrent Plot Threads: " ++ pyReprStrDict context.plot_threads ++
      "\n\nUpdate the status of any plot threads that were advanced or affected in this chapter." ++
      "\nProvide brief status updates only for threads that changed.\n"
    let updates := gen prompt threadSystemPrompt none
    (context.plot_threads.map Prod.fst).foldl
      (fun ctx thread_name =>
        if containsSub (pyLower updates).toList (pyLower thread_name).toList then
          let status := "Updated after Chapter " ++ toString (chapter_index + 1)
          { ctx with plot_threads := alInsert ctx.plot_threads thread_name status }
        else ctx)
      context

/-- `WritingEngine.finalize_chapter`: append the content, move the cursor
to `chapter_index + 1`, refresh arcs and threads, persist.  There is no
check that `chapter_index` matches the current cursor. -/
def finalize_chapter (gen : Gen) (chapter_index : Nat) (content : String)
    (context : StoryContext) (st : Store) :
    Except Err (StoryContext × Store) :=
  match update_character_arcs gen chapter_index content
    { context with
      completed_chapters := context.completed_chapters ++ [content],
      current_chapter := chapter_index + 1 } with
  | .error e => .error e
  | .ok ctxA =>
    .ok (update_plot_threads gen chapter_index content ctxA,
         ContextManager.save_context (update_plot_threads gen chapter_index content ctxA) st)

end WritingEngine

/-! ## Story critic (src/src/agents/story_critic.py) -/

namespace StoryCritic

/-- JSON-schema fragment `{"type": "string"}`. -/
def strT : Json := .obj [("type", .str "string")]

/-- JSON-schema fragment for an array of strings. -/
def strArrT : Json := .obj [("type", .str "array"), ("items", strT)]

/-- JSON-schema fragment for an integer scored 1..10. -/
def scoreT : Json :=
  .obj [("type", .str "integer"), ("minimum", .int 1), ("maximum", .int 10)]

/-- The critique response schema used by `critique_chapter` (and shared
verbatim by `critique_full_story`). -/
def critiqueSchema : Json :=
  .obj [("type", .str "object"),
        ("properties", .obj
          [("overall_score", scoreT),
           ("strengths", strArrT),
           ("weaknesses", strArrT),
           ("suggestions", strArrT),
           ("continuity_issues", strArrT),
           ("character_consistency", scoreT),
           ("plot_coherence", scoreT)]),
        ("required", .arr
          [.str "overall_score", .str "strengths", .str "weaknesses",
           .str "suggestions", .str "character_consistency",
           .str "plot_coherence"])]

/-- A required `str` field of a structured result (`KeyError` when absent,
pydantic `ValidationError` on the wrong shape). -/
def reqStrField (fs : List (String × Json)) (k : String) : Except Err String :=
  match getField fs k with
  | none => .error (.keyError k)
  | some j => match asStr j with
    | none => .error .validationError
    | some s => .ok s

/-- A required `int` field of a structured result. -/
def reqIntField (fs : List (String × Json)) (k : String) : Except Err Int :=
  match getField fs k with
  | none => .error (.keyError k)
  | some j => match asInt j with
    | none => .error .validationError
    | some n => .ok n

/-- A required `List[str]` field of a structured result. -/
def reqStrListField (fs : List (String × Json)) (k : String) :
    Except Err (List String) :=
  match getField fs k with
  | none => .error (.keyError k)
  | some j => match asStrList j with
    | none => .error .validationError
    | some l => .ok l

/-- A required score field, pydantic-validated to 1..10. -/
def reqScoreField (fs : List (String × Json)) (k : String) : Except Err Int :=
  match reqIntField fs k with
  | .error e => .error e
  | .ok n => if 1 ≤ n ∧ n ≤ 10 then .ok n else .error .validationError

/-- `CritiqueResult(...)` built from a structured generation result, as in
`critique_chapter` (dict accesses, `result.get("continuity_issues", [])`,
then pydantic validation). -/
def mkCritiqueResult (j : Json) : Except Err CritiqueResult :=
  match j with
  | .obj fs =>
    match reqScoreField fs "overall_score" with
    | .error e => .error e
    | .ok overall_score =>
    match reqStrListField fs "strengths" with
    | .error e => .error e
    | .ok strengths =>
    match reqStrListField fs "weaknesses" with
    | .error e => .error e
    | .ok weaknesses =>
    match reqStrListField fs "suggestions" with
    | .error e => .error e
    | .ok suggestions =>
    match (match getField fs "continuity_issues" with
           | none => .ok []
           | some cj => match asStrList cj with
             | none => .error Err.validationError
             | some l => .ok l : Except Err (List String)) with
    | .error e => .error e
    | .ok continuity_issues =>
    match reqScoreField fs "character_consistency" with
    | .error e => .error e
    | .ok character_consistency =>
    match reqScoreField fs "plot_coherence" with
    | .error e => .error e
    | .ok plot_coherence =>
      .ok ⟨overall_score, strengths, weaknesses, suggestions,
           continuity_issues, character_consistency, plot_coherence⟩
  | _ => .error .typeError

/-- The system prompt of `StoryCritic.critique_chapter`. -/
def critiqueSystemPrompt : String :=
  "You are a professional story editor and critic. Provide constructive,\n" ++
  "detailed feedback on story chapters focusing on:\n\n" ++
  "1. Character development and consistency\n" ++
  "2. Plot advancement and coherence\n" ++
  "3. Writing quality and style\n" ++
  "4. Pacing and structure\n" ++
  "5. Continuity with previous chapters\n" ++
  "6. Genre conventions and reader expectations\n\n" ++
  "Be specific, actionable, and balanced in your critique."

/-- `StoryCritic.critique_chapter`: one structured call grounded on the
chapter spec, a prior-content tail and the character summary. -/
def critique_chapter (parse : Parse) (gen : Gen) (chapter_content : String)
    (chapter_index : Nat) (context : StoryContext) (st : Store) :
    Except Err CritiqueResult × Nat :=
  match context.outline.chapters.get? chapter_index with
  | none => (.error .indexError, 0)
  | some chapter =>
    match (if 0 < chapter_index then
            match ContextManager.get_recent_content st 2 with
            | .error e => .error e
            | .ok r => .ok (pyTake r 1000)
           else .ok "This is the first chapter" : Except Err String) with
    | .error e => (.error e, 0)
    | .ok previous =>
      match ContextManager.get_character_summary st with
      | .error e => (.error e, 0)
      | .ok char_summary =>
        let critique_prompt :=
          "\nCritique this chapter:\n\nChapter " ++ toString (chapter_index + 1) ++
          ": " ++ chapter.title ++
          "\nExpected Summary: " ++ chapter.summary ++
          "\nExpected Key Events: " ++
            String.intercalate ", " chapter.key_events ++
          "\n\nChapter Content:\n" ++ chapter_content ++
          "\n\nStory Context:\n- Genre: " ++ context.outline.genre ++
          "\n- Theme: " ++ context.outline.theme ++
          "\n- Setting: " ++ context.outline.setting ++
          "\n\nPrevious chapters summary:\n" ++ previous ++
          "\n\nCharacter arcs so far:\n" ++ pyTake char_summary 1000 ++
          "\n\nProvide detailed critique focusing on strengths, weaknesses, and specific suggestions.\n"
        match LLMInterface.generate_structured parse gen critique_prompt
            critiqueSchema (some critiqueSystemPrompt) with
        | .error e => (.error e, 1)
        | .ok result =>
          match mkCritiqueResult result with
          | .error e => (.error e, 1)
          | .ok critique => (.ok critique, 1)

/-- The continuity-scan response schema. -/
def continuitySchema : Json :=
  .obj [("type", .str "object"),
        ("properties", .obj [("continuity_issues", strArrT)]),
        ("required", .arr [.str "continuity_issues"])]

/-- The system prompt of `StoryCritic.check_continuity`. -/
def continuitySystemPrompt : String :=
  "Check for continuity errors, inconsistencies, and plot holes\n" ++
  "across the recent chapters. Focus on character behavior, timeline, world-building,\n" ++
  "and plot thread consistency."

/-- `StoryCritic.check_continuity`: empty-window short circuit, otherwise
one structured call whose `continuity_issues` field is returned as-is.
The `context` parameter is unused by the source body, which re-reads the
store instead. -/
def check_continuity (parse : Parse) (gen : Gen) (st : Store)
    (_context : StoryContext) (num_recent_chapters : Nat) :
    Except Err Json × Nat :=
  match ContextManager.get_recent_content st num_recent_chapters with
  | .error e => (.error e, 0)
  | .ok recent_content =>
    if recent_content = "" then (.ok (.arr []), 0)
    else
      match ContextManager.get_character_summary st with
      | .error e => (.error e, 0)
      | .ok char_summary =>
        match ContextManager.get_plot_summary st with
        | .error e => (.error e, 0)
        | .ok plot_summary =>
          let continuity_prompt :=
            "\nCheck these recent chapters for continuity issues:\n\n" ++
            "Story Context:\n- Characters: " ++ pyTake char_summary 1000 ++
            "\n- Plot Status: " ++ pyTake plot_summary 1000 ++
            "\n\nRecent Chapter Content:\n" ++ pyTake recent_content 3000 ++
            "\n\nIdentify any:\n" ++
            "1. Character behavior inconsistencies\n" ++
            "2. Timeline or chronology errors\n" ++
            "3. World-building contradictions\n" ++
            "4. Forgotten or contradicted plot points\n" ++
            "5. Inconsistent character knowledge or relationships\n\n" ++
            "List specific continuity issues found.\n"
          match LLMInterface.generate_structured parse gen continuity_prompt
              continuitySchema (some continuitySystemPrompt) with
          | .error e => (.error e, 1)
          | .ok result =>
            match result with
            | .obj fs =>
              match getField fs "continuity_issues" with
              | none => (.error (.keyError "continuity_issues"), 1)
              | some issues => (.ok issues, 1)
            | _ => (.error .typeError, 1)

end StoryCritic

/-! ## Outline creator (src/src/agents/outline_creator.py) -/

namespace OutlineCreator

/-- JSON-schema fragment for a `main_characters` entry. -/
def characterItemT : Json :=
  .obj [("type", .str "object"),
        ("properties", .obj
          [("name", StoryCritic.strT), ("role", StoryCritic.strT),
           ("description", StoryCritic.strT), ("arc", StoryCritic.strT),
           ("motivation", StoryCritic.strT)]),
        ("required", .arr [.str "name", .str "role", .str "description"])]

/-- JSON-schema fragment for a chapter entry. -/
def chapterItemT : Json :=
  .obj [("type", .str "object"),
        ("properties", .obj
          [("title", StoryCritic.strT), ("summary", StoryCritic.strT),
           ("key_events", StoryCritic.strArrT),
           ("characters_involved", StoryCritic.strArrT),
           ("word_count_target", .obj [("type", .str "integer")])]),
        ("required", .arr
          [.str "title", .str "summary", .str "key_events",
           .str "characters_involved", .str "word_count_target"])]

/-- The outline response schema shared by `create_outline` and
`revise_outline`. -/
def outlineSchema : Json :=
  .obj [("type", .str "object"),
        ("properties", .obj
          [("title", StoryCritic.strT), ("premise", StoryCritic.strT),
           ("theme", StoryCritic.strT),
           ("main_characters", .obj
             [("type", .str "array"), ("items", characterItemT)]),
           ("setting", StoryCritic.strT),
           ("chapters", .obj
             [("type", .str "array"), ("items", chapterItemT)]),
           ("total_word_count", .obj [("type", .str "integer")]),
           ("genre", StoryCritic.strT)]),
        ("required", .arr
          [.str "title", .str "premise", .str "theme", .str "main_characters",
           .str "setting", .str "chapters", .str "total_word_count",
           .str "genre"])]

/-- `[Chapter(**chapter) for chapter in result["chapters"]]` followed by
the `StoryOutline(...)` construction, from a structured result. -/
def buildOutlineFromResult (result : Json) : Except Err StoryOutline :=
  match result with
  | .obj fs =>
    match getField fs "chapters" with
    | none => .error (.keyError "chapters")
    | some chaptersJ =>
      match (match chaptersJ with
             | .arr xs => ContextManager.exMapM
                 (fun cj => match decodeChapter cj with
                   | none => .error Err.validationError
                   | some c => .ok c) xs
             | _ => .error Err.typeError : Except Err (List Chapter)) with
      | .error e => .error e
      | .ok chapters =>
        match StoryCritic.reqStrField fs "title" with
        | .error e => .error e
        | .ok title =>
        match StoryCritic.reqStrField fs "premise" with
        | .error e => .error e
        | .ok premise =>
        match StoryCritic.reqStrField fs "theme" with
        | .error e => .error e
        | .ok theme =>
        match (match getField fs "main_characters" with
               | none => .error (Err.keyError "main_characters")
               | some j => match asObjList j with
                 | none => .error Err.validationError
                 | some l => .ok l : Except Err (List (List (String × Json)))) with
        | .error e => .error e
        | .ok main_characters =>
        match StoryCritic.reqStrField fs "setting" with
        | .error e => .error e
        | .ok setting =>
        match StoryCritic.reqIntField fs "total_word_count" with
        | .error e => .error e
        | .ok total_word_count =>
        match StoryCritic.reqStrField fs "genre" with
        | .error e => .error e
        | .ok genre =>
          .ok ⟨title, premise, theme, main_characters, setting, chapters,
               total_word_count, genre⟩
  | _ => .error .typeError

/-- The system prompt of `OutlineCreator.revise_outline`. -/
def reviseSystemPrompt : String :=
  "Revise the story outline based on user feedback.\n" ++
  "Maintain the overall structure while incorporating the requested changes.\n" ++
  "Ensure consistency across all chapters and character arcs."

/-- `OutlineCreator.revise_outline`: one structured call conditioned on
the serialized current outline plus free-text feedback; the result is an
entirely new outline. -/
def revise_outline (parse : Parse) (gen : Gen) (outline : StoryOutline)
    (feedback : String) : Except Err StoryOutline :=
  let revision_prompt :=
    "\nRevise this outline based on the feedback:\n\nCurrent Outline: " ++
    dumpJson (encodeStoryOutline outline) ++
    "\n\nUser Feedback: " ++ feedback ++
    "\n\nProvide the complete revised outline maintaining structural integrity.\n"
  match LLMInterface.generate_structured parse gen revision_prompt
      outlineSchema (some reviseSystemPrompt) with
  | .error e => .error e
  | .ok result => buildOutlineFromResult result

end OutlineCreator

/-! ## Orchestrator (src/src/core/novel_writer.py) -/

namespace NovelWriter

/-- The value returned by `NovelWriter.write_next_chapter`: either the
completion signal or the drafted chapter with its mandatory critique. -/
inductive WriteNextResult where
  | completed (message : String)
  | chapter (chapter_index : Nat) (chapter_title : String) (content : String)
      (critique : CritiqueResult) (word_count : Nat)
deriving Repr, DecidableEq, Inhabited

/-- The error message of `approve_outline` on missing feedback. -/
def feedbackRequiredMsg : String :=
  "Feedback is required when outline is not approved"

/-- `NovelWriter.approve_outline`: `approved=True` is a no-op; rejection
requires non-empty feedback, then regenerates and persists the whole
outline.  The last component counts generation calls. -/
def approve_outline (parse : Parse) (gen : Gen) (approved : Bool)
    (feedback : Option String) (st : Store) :
    Except Err (Option StoryOutline) × Store × Nat :=
  if approved then (.ok none, st, 0)
  else
    match feedback with
    | none => (.error (.valueError feedbackRequiredMsg), st, 0)
    | some f =>
      if f = "" then (.error (.valueError feedbackRequiredMsg), st, 0)
      else
        match ContextManager.load_context st with
        | .error e => (.error e, st, 0)
        | .ok none => (.error .noActiveProject, st, 0)
        | .ok (some context) =>
          match OutlineCreator.revise_outline parse gen context.outline f with
          | .error e => (.error e, st, 1)
          | .ok revised_outline =>
            let context := { context with outline := revised_outline }
            (.ok (some revised_outline), ContextManager.save_context context st, 1)

/-- `NovelWriter.write_next_chapter`: returns the completion signal at the
end of the outline, otherwise drafts exactly one chapter (one session
record) and critiques it.  The last component counts generation calls. -/
def write_next_chapter (parse : Parse) (gen : Gen)
    (additional_instructions : Option String) (now : String) (st : Store) :
    Except Err WriteNextResult × Store × Nat :=
  match ContextManager.load_context st with
  | .error e => (.error e, st, 0)
  | .ok none => (.error .noActiveProject, st, 0)
  | .ok (some context) =>
    if context.outline.chapters.length ≤ context.current_chapter then
      (.ok (.completed "Story is complete!"), st, 0)
    else
      match WritingEngine.write_chapter gen context.current_chapter context
          additional_instructions now st with
      | (.error e, n) => (.error e, st, n)
      | (.ok (chapter_content, st2), n) =>
        match StoryCritic.critique_chapter parse gen chapter_content
            context.current_chapter context st2 with
        | (.error e, m) => (.error e, st2, n + m)
        | (.ok critique, m) =>
          match context.outline.chapters.get? context.current_chapter with
          | none => (.error .indexError, st2, n + m)
          | some ch =>
            (.ok (.chapter context.current_chapter ch.title chapter_content
              critique (pySplit chapter_content).length), st2, n + m)

/-- The system prompt of `NovelWriter.apply_revisions`. -/
def revisionSystemPrompt : String :=
  "Apply the requested revisions to this chapter content.\n" ++
  "Maintain the overall structure and story elements while addressing the specific\n" ++
  "revision requests."

/-- `NovelWriter.apply_revisions`: one free-text rewrite call.  The
`context` parameter is unused by the source body. -/
def apply_revisions (gen : Gen) (content : String) (revision_notes : String)
    (_context : StoryContext) : String :=
  let revision_prompt :=
    "\nOriginal Chapter Content:\n" ++ content ++
    "\n\nRevision Notes:\n" ++ revision_notes ++
    "\n\nApply the requested revisions while maintaining story consistency and quality." ++
    "\nReturn the complete revised chapter.\n"
  gen revision_prompt revisionSystemPrompt none

/-- `NovelWriter.finalize_chapter`: reads the latest session record, runs
the optional revision pass, and commits via the writing engine at the
current cursor (no chapter index is taken). -/
def finalize_chapter (gen : Gen) (approved : Bool) (revisions : Option String)
    (st : Store) : Except Err Store :=
  match ContextManager.load_context st with
  | .error e => .error e
  | .ok none => .error .noActiveProject
  | .ok (some context) =>
    match ContextManager.load_sessions st with
    | .error e => .error e
    | .ok sessions =>
      match sessions.getLast? with
      | none => .error (.valueError "No chapter content found")
      | some latest_session =>
        match latest_session with
        | .obj fs =>
          match getField fs "content_written" with
          | none => .error (.keyError "content_written")
          | some cw =>
            match asStr cw with
            | none => .error .typeError
            | some chapter_content =>
              let chapter_content :=
                match revisions with
                | some r =>
                  if ¬approved ∧ r ≠ "" then
                    apply_revisions gen chapter_content r context
                  else chapter_content
                | none => chapter_content
              match WritingEngine.finalize_chapter gen context.current_chapter
                  chapter_content context st with
              | .error e => .error e
              | .ok (_, st2) => .ok st2
        | _ => .error .typeError

end NovelWriter

/-! ## Helper lemmas about the finalize pipeline -/

namespace WritingEngine

theorem updateArcStep_fields (gen : Gen) (content : String) (c : StoryContext)
    (name : String) (c2 : StoryContext)
    (h : updateArcStep gen content c name = .ok c2) :
    c2.completed_chapters = c.completed_chapters ∧
    c2.current_chapter = c.current_chapter := by
  unfold updateArcStep at h
  cases hm : mainNames c.outline with
  | error e => rw [hm] at h; cases h
  | ok names =>
    rw [hm] at h
    by_cases hany : names.any (nameMatches name) = true
    · simp only [hany, if_true] at h
      cases h
      exact ⟨rfl, rfl⟩
    · simp only [hany, if_false] at h
      cases h
      exact ⟨rfl, rfl⟩

theorem exFoldlM_arcs_fields (gen : Gen) (content : String) :
    ∀ (l : List String) (c c2 : StoryContext),
      exFoldlM (updateArcStep gen content) c l = .ok c2 →
      c2.completed_chapters = c.completed_chapters ∧
      c2.current_chapter = c.current_chapter := by
  intro l
  induction l with
  | nil =>
    intro c c2 h
    cases h
    exact ⟨rfl, rfl⟩
  | cons x xs ih =>
    intro c c2 h
    simp only [exFoldlM] at h
    cases hs : updateArcStep gen content c x with
    | error e => rw [hs] at h; cases h
    | ok cmid =>
      rw [hs] at h
      obtain ⟨h1, h2⟩ := updateArcStep_fields gen content c x cmid hs
      obtain ⟨h3, h4⟩ := ih cmid c2 h
      exact ⟨h3.trans h1, h4.trans h2⟩

theorem update_character_arcs_fields (gen : Gen) (chapter_index : Nat)
    (content : String) (c c2 : StoryContext)
    (h : update_character_arcs gen chapter_index content c = .ok c2) :
    c2.completed_chapters = c.completed_chapters ∧
    c2.current_chapter = c.current_chapter := by
  unfold update_character_arcs at h
  cases hg : c.outline.chapters.get? chapter_index with
  | none => rw [hg] at h; cases h
  | some chapter =>
    rw [hg] at h
    exact exFoldlM_arcs_fields gen content chapter.characters_involved c c2 h

theorem threads_foldl_fields (updates : String) (chapter_index : Nat) :
    ∀ (l : List String) (c : StoryContext),
      ((l.foldl (fun ctx thread_name =>
        if containsSub (pyLower updates).toList (pyLower thread_name).toList then
          let status := "Updated after Chapter " ++ toString (chapter_index + 1)
          { ctx with plot_threads := alInsert ctx.plot_threads thread_name status }
        else ctx) c).completed_chapters = c.completed_chapters ∧
       (l.foldl (fun ctx thread_name =>
        if containsSub (pyLower updates).toList (pyLower thread_name).toList then
          let status := "Updated after Chapter " ++ toString (chapter_index + 1)
          { ctx with plot_threads := alInsert ctx.plot_threads thread_name status }
        else ctx) c).current_chapter = c.current_chapter) := by
  intro l
  induction l with
  | nil => intro c; exact ⟨rfl, rfl⟩
  | cons x xs ih =>
    intro c
    simp only [List.foldl_cons]
    by_cases hc : containsSub (pyLower updates).toList (pyLower x).toList = true
    · simp only [hc, if_true]
      exact ih _
    · simp only [hc, if_false]
      exact ih _

theorem update_plot_threads_fields (gen : Gen) (chapter_index : Nat)
    (content : String) (c : StoryContext) :
    (update_plot_threads gen chapter_index content c).completed_chapters =
      c.completed_chapters ∧
    (update_plot_threads gen chapter_index content c).current_chapter =
      c.current_chapter := by
  unfold update_plot_threads
  by_cases hp : c.plot_threads = []
  · rw [if_pos hp]
    exact ⟨rfl, rfl⟩
  · rw [if_neg hp]
    exact threads_foldl_fields _ chapter_index (c.plot_threads.map Prod.fst) c

theorem finalize_chapter_effect (gen : Gen) (chapter_index : Nat)
    (content : String) (context : StoryContext) (st : Store)
    (context2 : StoryContext) (st2 : Store)
    (h : finalize_chapter gen chapter_index content context st =
      .ok (context2, st2)) :
    context2.completed_chapters = context.completed_chapters ++ [content] ∧
    context2.current_chapter = chapter_index + 1 ∧
    st2 = ContextManager.save_context context2 st := by
  unfold finalize_chapter at h
  split at h
  · cases h
  · rename_i cmid heq
    cases h
    obtain ⟨hA1, hA2⟩ := update_character_arcs_fields gen chapter_index content
      _ cmid heq
    obtain ⟨hP1, hP2⟩ := update_plot_threads_fields gen chapter_index content cmid
    exact ⟨hP1.trans hA1, hP2.trans hA2, rfl⟩

end WritingEngine

/-- Helper: a freshly saved context loads back unchanged (the store keeps
the dumped JSON value, and validation inverts the dump). -/
theorem load_save_round_trip (context : StoryContext) (st : Store) :
    ContextManager.load_context (ContextManager.save_context context st) =
      .ok (some context) := by
  simp [ContextManager.load_context, ContextManager.save_context,
    decodeStoryContext_encode]

/-! ## Claim theorems -/

/-- A generic example generator used by witnesses. -/
def genC : Gen := fun _ _ _ => "NEXT"

/-- A sample chapter used by witnesses. -/
def sampleChapter : Chapter :=
  { title := "T1", summary := "S1", key_events := [],
    characters_involved := [], word_count_target := 100 }

/-- A second sample chapter used by witnesses. -/
def sampleChapter2 : Chapter :=
  { title := "T2", summary := "S2", key_events := [],
    characters_involved := [], word_count_target := 100 }

/-- A sample one-chapter outline used by witnesses. -/
def sampleOutline : StoryOutline :=
  { title := "Title", premise := "P", theme := "Th", main_characters := [],
    setting := "Set", chapters := [sampleChapter], total_word_count := 100,
    genre := "G" }

/-- A sample two-chapter outline used by witnesses. -/
def sampleOutline2 : StoryOutline :=
  { title := "Title2", premise := "P2", theme := "Th2", main_characters := [],
    setting := "Set2", chapters := [sampleChapter, sampleChapter2],
    total_word_count := 200, genre := "G2" }

/-- A fresh sample context over the one-chapter outline. -/
def sampleContext : StoryContext := { outline := sampleOutline }

/-- A fresh sample context over the two-chapter outline
(`current_chapter = 0`, nothing completed). -/
def ctxTwo : StoryContext := { outline := sampleOutline2 }

/-- The state that the out-of-order C1 call actually commits. -/
def ctxTwoAfter : StoryContext :=
  { ctxTwo with completed_chapters := ["body"], current_chapter := 2 }

/-- C1 (counterexample): `WritingEngine.finalize_chapter` called with
chapter index `1` on a context whose cursor is `0` is not rejected: it
succeeds, commits the content and moves the cursor to `2`. -/
theorem C1_counterexample :
    1 ≠ ctxTwo.current_chapter ∧
    WritingEngine.finalize_chapter genC 1 "body" ctxTwo {} =
      .ok (ctxTwoAfter,
           { context_file := some (encodeStoryContext ctxTwoAfter),
             sessions_file := none }) := by
  exact ⟨by decide, rfl⟩

/-- C1 (amended): `WritingEngine.finalize_chapter` performs no
index-versus-cursor check: every call that returns successfully — whatever
the index, equal to `current_chapter` or not — appends the content to
`completed_chapters`, sets `current_chapter` to `chapter_index + 1`, and
persists the mutated context. -/
theorem C1_finalize_no_index_guard (gen : Gen) (chapter_index : Nat)
    (content : String) (context : StoryContext) (st : Store)
    (context2 : StoryContext) (st2 : Store)
    (h : WritingEngine.finalize_chapter gen chapter_index content context st =
      .ok (context2, st2)) :
    context2.completed_chapters = context.completed_chapters ++ [content] ∧
    context2.current_chapter = chapter_index + 1 ∧
    st2.context_file = some (encodeStoryContext context2) := by
  obtain ⟨h1, h2, h3⟩ := WritingEngine.finalize_chapter_effect gen chapter_index
    content context st context2 st2 h
  exact ⟨h1, h2, by rw [h3]; rfl⟩

/-- The committed pair of the C1 witness call. -/
def c1pair : StoryContext × Store :=
  match WritingEngine.finalize_chapter genC 1 "body" ctxTwo {} with
  | .ok p => p
  | .error _ => default

/-- C1 (witness): the amended characterization evaluated on the concrete
out-of-order call. -/
theorem C1_witness :
    c1pair.1.completed_chapters = ctxTwo.completed_chapters ++ ["body"] ∧
    c1pair.1.current_chapter = 1 + 1 ∧
    c1pair.2.context_file = some (encodeStoryContext c1pair.1) :=
  C1_finalize_no_index_guard genC 1 "body" ctxTwo {} c1pair.1 c1pair.2 rfl

/-- C4: saving a context and loading it back returns a context equal in
all fields to the one saved. -/
theorem C4_save_load_round_trip (context : StoryContext) (st : Store) :
    ContextManager.load_context (ContextManager.save_context context st) =
      .ok (some context) :=
  load_save_round_trip context st

/-- C3: `continue_chapter` returns the existing text, byte for byte,
followed by a blank-line separator and the newly generated continuation. -/
theorem C3_continue_preserves_prefix (gen : Gen) (chapter_index : Nat)
    (existing_content : String) (context : StoryContext)
    (continuation_note : String)
    (h : chapter_index < context.outline.chapters.length) :
    ∃ continuation,
      WritingEngine.continue_chapter gen chapter_index existing_content context
        continuation_note = some (existing_content ++ "\n\n" ++ continuation) := by
  unfold WritingEngine.continue_chapter
  rw [List.get?_eq_get h]
  exact ⟨_, rfl⟩

/-- C3 (witness): the prefix property evaluated on a concrete call. -/
theorem C3_witness :
    ∃ continuation,
      WritingEngine.continue_chapter genC 0 "abc" sampleContext "" =
        some ("abc" ++ "\n\n" ++ continuation) :=
  C3_continue_preserves_prefix genC 0 "abc" sampleContext "" (by decide)

/-- C2: on a context in a stable state (`current_chapter` equals the
number of completed chapters), every successful orchestrator finalize call
leaves the persisted context in a stable state again. -/
theorem C2_finalize_preserves_invariant (gen : Gen) (approved : Bool)
    (revisions : Option String) (st : Store) (context : StoryContext)
    (st2 : Store)
    (hload : ContextManager.load_context st = .ok (some context))
    (hstable : context.current_chapter = context.completed_chapters.length)
    (hok : NovelWriter.finalize_chapter gen approved revisions st = .ok st2) :
    ∃ context2, ContextManager.load_context st2 = .ok (some context2) ∧
      context2.current_chapter = context2.completed_chapters.length := by
  unfold NovelWriter.finalize_chapter at hok
  rw [hload] at hok
  dsimp only at hok
  split at hok
  · cases hok
  · split at hok
    · cases hok
    · split at hok
      · split at hok
        · cases hok
        · split at hok
          · cases hok
          · split at hok
            · cases hok
            · rename_i context2 stB heq
              cases hok
              obtain ⟨h1, h2, h3⟩ := WritingEngine.finalize_chapter_effect gen
                context.current_chapter _ context st context2 _ heq
              refine ⟨context2, ?_, ?_⟩
              · rw [h3, load_save_round_trip]
              · rw [h1, h2, hstable, List.length_append]
                rfl
      · cases hok

/-- A drafted session record used by witnesses. -/
def sampleSession : WritingSession :=
  { chapter_index := 0, content_written := "draft", word_count := 1,
    timestamp := "t" }

/-- A store holding the sample context and one drafted session. -/
def sampleStore : Store :=
  { context_file := some (encodeStoryContext sampleContext),
    sessions_file := some (.arr [encodeWritingSession sampleSession]) }

/-- The store committed by the C2 witness call. -/
def sampleStoreAfter : Store :=
  match NovelWriter.finalize_chapter genC true none sampleStore with
  | .ok s => s
  | .error _ => default

/-- C2 (witness): the invariant-preservation theorem evaluated on a
concrete finalize call. -/
theorem C2_witness :
    ∃ context2,
      ContextManager.load_context sampleStoreAfter = .ok (some context2) ∧
      context2.current_chapter = context2.completed_chapters.length :=
  C2_finalize_preserves_invariant genC true none sampleStore sampleContext
    sampleStoreAfter rfl rfl rfl

/-- C2 (counterexample): the writing-engine finalize called directly with
an index other than the cursor succeeds from a stable context and leaves
the invariant broken afterwards (cf. the missing index guard of C1). -/
theorem C2_counterexample :
    ctxTwo.current_chapter = ctxTwo.completed_chapters.length ∧
    ∃ p, WritingEngine.finalize_chapter genC 1 "body" ctxTwo {} = .ok p ∧
      p.1.current_chapter ≠ p.1.completed_chapters.length := by
  refine ⟨rfl, ⟨(ctxTwoAfter,
    { context_file := some (encodeStoryContext ctxTwoAfter),
      sessions_file := none }), rfl, by decide⟩⟩

/-- C5: when the stored context has no completed chapters,
`check_continuity` returns the empty issue list immediately, with zero
generation calls. -/
theorem C5_check_continuity_short_circuit (parse : Parse) (gen : Gen)
    (st : Store) (context stored : StoryContext) (num_recent_chapters : Nat)
    (hload : ContextManager.load_context st = .ok (some stored))
    (hempty : stored.completed_chapters = []) :
    StoryCritic.check_continuity parse gen st context num_recent_chapters =
      (.ok (.arr []), 0) := by
  unfold StoryCritic.check_continuity ContextManager.get_recent_content
  rw [hload]
  dsimp only
  rw [hempty]
  simp only [List.take_nil, List.drop_nil]
  rfl

/-- A store whose context has an empty completed-chapter list. -/
def emptyStore : Store := { context_file := some (encodeStoryContext sampleContext) }

/-- C5 (witness): the short circuit evaluated on a concrete store. -/
theorem C5_witness :
    StoryCritic.check_continuity (fun _ => none) genC emptyStore sampleContext 5 =
      (.ok (.arr []), 0) :=
  C5_check_continuity_short_circuit (fun _ => none) genC emptyStore
    sampleContext sampleContext 5 rfl rfl

/-- C6: when the cursor has reached the end of the outline,
`write_next_chapter` returns the completion signal, makes no generation
call, appends no session record and leaves the store untouched. -/
theorem C6_write_next_chapter_completed (parse : Parse) (gen : Gen)
    (additional_instructions : Option String) (now : String) (st : Store)
    (context : StoryContext)
    (hload : ContextManager.load_context st = .ok (some context))
    (hdone : context.current_chapter = context.outline.chapters.length) :
    NovelWriter.write_next_chapter parse gen additional_instructions now st =
      (.ok (.completed "Story is complete!"), st, 0) := by
  unfold NovelWriter.write_next_chapter
  rw [hload]
  dsimp only
  rw [if_pos (le_of_eq hdone.symm)]

/-- A context whose single chapter has been completed. -/
def doneContext : StoryContext :=
  { outline := sampleOutline, completed_chapters := ["c1"], current_chapter := 1 }

/-- A store holding the completed context. -/
def doneStore : Store := { context_file := some (encodeStoryContext doneContext) }

/-- C6 (witness): the completion boundary evaluated on a concrete store. -/
theorem C6_witness :
    NovelWriter.write_next_chapter (fun _ => none) genC none "t" doneStore =
      (.ok (.completed "Story is complete!"), doneStore, 0) :=
  C6_write_next_chapter_completed (fun _ => none) genC none "t" doneStore
    doneContext rfl rfl

/-- C7: on a stored stable context, `get_recent_content n` is the
blank-line join of a window that is a suffix of the chapters strictly
before the cursor and has exactly `min n current_chapter` elements (hence
never more than `n`). -/
theorem C7_recent_content_window (st : Store) (context : StoryContext) (n : Nat)
    (hload : ContextManager.load_context st = .ok (some context))
    (hstable : context.current_chapter = context.completed_chapters.length) :
    ∃ w : List String,
      ContextManager.get_recent_content st n =
        .ok (String.intercalate "\n\n" w) ∧
      w.length = min n context.current_chapter ∧
      (∃ earlier, earlier ++ w =
        context.completed_chapters.take context.current_chapter) ∧
      w.length ≤ n := by
  refine ⟨(context.completed_chapters.take context.current_chapter).drop
    (context.current_chapter - n), ?_, ?_, ?_, ?_⟩
  · unfold ContextManager.get_recent_content
    rw [hload]
  · simp only [List.length_drop, List.length_take]
    rw [hstable]
    omega
  · exact ⟨_, List.take_append_drop _ _⟩
  · simp only [List.length_drop, List.length_take]
    rw [hstable]
    omega

/-- A stable context with three completed chapters (over a padded
outline). -/
def threeDoneContext : StoryContext :=
  { outline := sampleOutline2, completed_chapters := ["a", "b", "c"],
    current_chapter := 3 }

/-- A store holding the three-chapter context. -/
def threeDoneStore : Store :=
  { context_file := some (encodeStoryContext threeDoneContext) }

/-- C7 (witness): the window characterization evaluated on a concrete
store with `n = 2`. -/
theorem C7_witness :
    ∃ w : List String,
      ContextManager.get_recent_content threeDoneStore 2 =
        .ok (String.intercalate "\n\n" w) ∧
      w.length = min 2 threeDoneContext.current_chapter ∧
      (∃ earlier, earlier ++ w =
        threeDoneContext.completed_chapters.take
          threeDoneContext.current_chapter) ∧
      w.length ≤ 2 :=
  C7_recent_content_window threeDoneStore threeDoneContext 2 rfl rfl

/-- C8: rejecting the outline with missing or empty feedback raises the
feedback-required error with no generation call and no store change;
rejecting with non-empty feedback regenerates the whole outline and
persists it in place of the old one. -/
theorem C8_approve_outline_feedback (parse : Parse) (gen : Gen) (st : Store) :
    (∀ feedback, feedback = none ∨ feedback = some "" →
      NovelWriter.approve_outline parse gen false feedback st =
        (.error (.valueError NovelWriter.feedbackRequiredMsg), st, 0)) ∧
    (∀ f context revised, f ≠ "" →
      ContextManager.load_context st = .ok (some context) →
      OutlineCreator.revise_outline parse gen context.outline f = .ok revised →
      NovelWriter.approve_outline parse gen false (some f) st =
        (.ok (some revised),
         ContextManager.save_context { context with outline := revised } st, 1) ∧
      ContextManager.load_context
          (ContextManager.save_context { context with outline := revised } st) =
        .ok (some { context with outline := revised })) := by
  constructor
  · intro feedback hfb
    rcases hfb with h | h <;> subst h <;> rfl
  · intro f context revised hf hload hrev
    refine ⟨?_, load_save_round_trip _ _⟩
    unfold NovelWriter.approve_outline
    rw [if_neg (by simp)]
    dsimp only
    rw [if_neg hf, hload]
    dsimp only
    rw [hrev]

/-- A parse stub returning a fixed revised-outline JSON value. -/
def parseOutline : Parse := fun _ => some (encodeStoryOutline sampleOutline2)

/-- A store holding only the sample context. -/
def outlineStore : Store := { context_file := some (encodeStoryContext sampleContext) }

/-- C8 (witness): both halves evaluated on concrete inputs. -/
theorem C8_witness :
    NovelWriter.approve_outline parseOutline genC false (some "") outlineStore =
      (.error (.valueError NovelWriter.feedbackRequiredMsg), outlineStore, 0) ∧
    NovelWriter.approve_outline parseOutline genC false (some "twist")
        outlineStore =
      (.ok (some sampleOutline2),
       ContextManager.save_context { sampleContext with outline := sampleOutline2 }
         outlineStore, 1) :=
  ⟨(C8_approve_outline_feedback parseOutline genC outlineStore).1 (some "")
      (Or.inr rfl),
   ((C8_approve_outline_feedback parseOutline genC outlineStore).2 "twist"
      sampleContext sampleOutline2 (by decide) rfl rfl).1⟩

/-- Helper: what a successful `findIdxFrom` search means — the hit is the
first occurrence at or after the running offset. -/
theorem findIdxFrom_spec (c : Char) :
    ∀ (l : List Char) (n m : Nat), findIdxFrom c l n = some m →
      n ≤ m ∧ m - n < l.length ∧ l[m - n]? = some c ∧
      ∀ k, k < m - n → l[k]? ≠ some c := by
  intro l
  induction l with
  | nil => intro n m h; cases h
  | cons x xs ih =>
    intro n m h
    simp only [findIdxFrom] at h
    by_cases hx : x = c
    · rw [if_pos hx] at h
      cases h
      subst hx
      refine ⟨Nat.le_refl n, by simp, by simp, ?_⟩
      intro k hk
      simp [Nat.sub_self] at hk
    · rw [if_neg hx] at h
      obtain ⟨h1, h2, h3, h4⟩ := ih (n + 1) m h
      have hmn : m - n = (m - (n + 1)) + 1 := by omega
      refine ⟨by omega, ?_, ?_, ?_⟩
      · simp only [List.length_cons]
        omega
      · rw [hmn, List.getElem?_cons_succ]
        exact h3
      · intro k hk
        cases k with
        | zero =>
          simp only [List.getElem?_cons_zero, ne_eq, Option.some.injEq]
          exact hx
        | succ k2 =>
          rw [List.getElem?_cons_succ]
          exact h4 k2 (by omega)

/-- Helper: `strFind` returns the index of the first occurrence. -/
theorem strFind_spec (s : String) (c : Char) (i : Nat)
    (h : strFind s c = some i) :
    i < s.toList.length ∧ s.toList[i]? = some c ∧
      ∀ k, k < i → s.toList[k]? ≠ some c := by
  obtain ⟨_, h2, h3, h4⟩ := findIdxFrom_spec c s.toList 0 i h
  simpa using ⟨h2, h3, h4⟩

/-- Helper: `strRFind` returns the index of the last occurrence. -/
theorem strRFind_spec (s : String) (c : Char) (j : Nat)
    (h : strRFind s c = some j) :
    j < s.toList.length ∧ s.toList[j]? = some c ∧
      ∀ k, j < k → k < s.toList.length → s.toList[k]? ≠ some c := by
  unfold strRFind at h
  cases hr : findIdxFrom c s.toList.reverse 0 with
  | none => rw [hr] at h; cases h
  | some i =>
    rw [hr] at h
    cases h
    obtain ⟨_, h2, h3, h4⟩ := findIdxFrom_spec c s.toList.reverse 0 i hr
    simp only [Nat.sub_zero, List.length_reverse] at h2 h3 h4
    have hlen : 0 < s.toList.length := by omega
    refine ⟨by omega, ?_, ?_⟩
    · rw [← List.getElem?_reverse h2]
      exact h3
    · intro k hk1 hk2
      have hrev : s.toList[k]? = s.toList.reverse[s.toList.length - 1 - k]? := by
        rw [List.getElem?_reverse (by omega : s.toList.length - 1 - k <
          s.toList.length)]
        have : s.toList.length - 1 - (s.toList.length - 1 - k) = k := by omega
        rw [this]
      rw [hrev]
      exact h4 (s.toList.length - 1 - k) (by omega)

/-- C9: when the direct parse of the stripped response fails,
`generate_structured`'s recovery stage re-parses exactly the substring of
the stripped response from its first opening brace to its last closing
brace (both characterized as first/last occurrences); when either brace is
missing, or the re-parse fails too, the call fails with a parse error. -/
theorem C9_structured_parse_extraction (parse : Parse) (response : String)
    (hfail : parse (pyStrip response) = none) :
    ((strFind (pyStrip response) '\x7b' = none ∨
        strRFind (pyStrip response) '\x7d' = none) →
      LLMInterface.parse_structured parse response = .error .parseError) ∧
    (∀ i j, strFind (pyStrip response) '\x7b' = some i →
      strRFind (pyStrip response) '\x7d' = some j →
      LLMInterface.parse_structured parse response =
        (match parse (pySlice (pyStrip response) i (j + 1)) with
         | some parsed => .ok parsed
         | none => .error .parseError) ∧
      (pyStrip response).toList[i]? = some '\x7b' ∧
      (∀ k, k < i → (pyStrip response).toList[k]? ≠ some '\x7b') ∧
      (pyStrip response).toList[j]? = some '\x7d' ∧
      (∀ k, j < k → k < (pyStrip response).toList.length →
        (pyStrip response).toList[k]? ≠ some '\x7d')) := by
  constructor
  · intro hmiss
    unfold LLMInterface.parse_structured LLMInterface.extract_json
    rw [hfail]
    dsimp only
    cases hfind : strFind (pyStrip response) '\x7b' with
    | none => dsimp only
    | some i =>
      cases hrfind : strRFind (pyStrip response) '\x7d' with
      | none => rfl
      | some j =>
        rcases hmiss with hm | hm
        · rw [hfind] at hm; cases hm
        · rw [hrfind] at hm; cases hm
  · intro i j hfind hrfind
    obtain ⟨hf1, hf2, hf3⟩ := strFind_spec _ _ _ hfind
    obtain ⟨hr1, hr2, hr3⟩ := strRFind_spec _ _ _ hrfind
    refine ⟨?_, hf2, hf3, hr2, hr3⟩
    unfold LLMInterface.parse_structured LLMInterface.extract_json
    rw [hfail]
    dsimp only
    rw [hfind, hrfind]

/-- A parse stub that always fails. -/
def parseNone : Parse := fun _ => none

/-- C9 (witness): the extraction path evaluated on a concrete response
whose direct parse fails: the whole call fails with a parse error, and
the extraction window is the brace span of the stripped text. -/
theorem C9_witness :
    LLMInterface.parse_structured parseNone " x\x7by\x7dz " = .error .parseError ∧
    (pyStrip " x\x7by\x7dz ").toList[1]? = some '\x7b' := by
  have h := (C9_structured_parse_extraction parseNone " x\x7by\x7dz " rfl).2
    1 3 rfl rfl
  refine ⟨?_, h.2.1⟩
  rw [h.1]
  rfl

/-- Helper: folding string concatenation from any seed. -/
theorem string_foldl_append (l : List String) :
    ∀ s : String, l.foldl (fun r t => r ++ t) s =
      s ++ l.foldl (fun r t => r ++ t) "" := by
  induction l with
  | nil => intro s; simp
  | cons x xs ih =>
    intro s
    simp only [List.foldl_cons]
    rw [ih (s ++ x), ih ("" ++ x), String.empty_append, String.append_assoc]

/-- Helper: `String.join` unfolds one element at a time. -/
theorem string_join_cons (a : String) (l : List String) :
    String.join (a :: l) = a ++ String.join l := by
  show List.foldl (fun r t => r ++ t) ("" ++ a) l = _
  rw [String.empty_append, string_foldl_append]
  rfl

/-- Helper: the export loop renders one block per completed chapter, in
order, while every running index stays within the outline. -/
theorem exportChapters_enumFrom_ok (chapters : List Chapter) :
    ∀ (l : List String) (n : Nat) (acc : String),
      n + l.length ≤ chapters.length →
      ContextManager.exportChapters chapters (List.enumFrom n l) acc =
        some (acc ++ String.join (List.zipWith
          (fun p ch => ContextManager.exportBlock p.1 ch.title p.2)
          (List.enumFrom n l) (chapters.drop n))) := by
  intro l
  induction l with
  | nil =>
    intro n acc h
    simp [ContextManager.exportChapters, List.enumFrom, String.join]
  | cons x xs ih =>
    intro n acc h
    have hn : n < chapters.length := by
      simp only [List.length_cons] at h
      omega
    simp only [List.enumFrom, ContextManager.exportChapters]
    rw [List.get?_eq_get hn]
    dsimp only
    rw [ih (n + 1) (acc ++ ContextManager.exportBlock n
      (chapters.get ⟨n, hn⟩).title x) (by simp only [List.length_cons] at h; omega)]
    rw [List.drop_eq_getElem_cons hn, List.zipWith_cons_cons, string_join_cons,
      String.append_assoc]
    rfl

/-- Helper: the export loop hits a missing outline chapter exactly when
there are more completed chapters than outline chapters. -/
theorem exportChapters_enumFrom_oob (chapters : List Chapter) :
    ∀ (l : List String) (n : Nat) (acc : String),
      n ≤ chapters.length → chapters.length < n + l.length →
      ContextManager.exportChapters chapters (List.enumFrom n l) acc = none := by
  intro l
  induction l with
  | nil =>
    intro n acc h1 h2
    simp only [List.length_nil] at h2
    omega
  | cons x xs ih =>
    intro n acc h1 h2
    by_cases hn : n < chapters.length
    · simp only [List.enumFrom, ContextManager.exportChapters]
      rw [List.get?_eq_get hn]
      dsimp only
      exact ih (n + 1) _ (by omega)
        (by simp only [List.length_cons] at h2 ⊢; omega)
    · simp only [List.enumFrom, ContextManager.exportChapters]
      rw [List.get?_eq_none.mpr (by omega)]

/-- C10: export succeeds exactly when no completed chapter lacks an
outline entry; on success the document is the metadata header followed by
one heading-plus-verbatim-content block per completed chapter, in chapter
order; with more completed chapters than outline chapters the chapter
lookup fails. -/
theorem C10_export_manuscript (st : Store) (context : StoryContext)
    (hload : ContextManager.load_context st = .ok (some context)) :
    (context.completed_chapters.length ≤ context.outline.chapters.length →
      ContextManager.export_manuscript st =
        .ok (some (ContextManager.exportHeader context ++
          String.join (List.zipWith
            (fun p ch => ContextManager.exportBlock p.1 ch.title p.2)
            context.completed_chapters.enum context.outline.chapters)))) ∧
    (context.outline.chapters.length < context.completed_chapters.length →
      ContextManager.export_manuscript st = .error .indexError) := by
  constructor
  · intro hle
    unfold ContextManager.export_manuscript
    rw [hload]
    dsimp only
    have hok := exportChapters_enumFrom_ok context.outline.chapters
      context.completed_chapters 0 (ContextManager.exportHeader context)
      (by omega)
    simp only [List.drop_zero] at hok
    rw [show context.completed_chapters.enum =
      List.enumFrom 0 context.completed_chapters from rfl, hok]
  · intro hgt
    unfold ContextManager.export_manuscript
    rw [hload]
    dsimp only
    rw [show context.completed_chapters.enum =
      List.enumFrom 0 context.completed_chapters from rfl,
      exportChapters_enumFrom_oob context.outline.chapters
        context.completed_chapters 0 _ (by omega) (by omega)]

/-- A context with one completed chapter over the two-chapter outline. -/
def exportContext : StoryContext :=
  { outline := sampleOutline2, completed_chapters := ["hello world"],
    current_chapter := 1 }

/-- A store holding the export context. -/
def exportStore : Store :=
  { context_file := some (encodeStoryContext exportContext) }

/-- C10 (witness): the successful branch evaluated on a concrete store. -/
theorem C10_witness :
    ContextManager.export_manuscript exportStore =
      .ok (some (ContextManager.exportHeader exportContext ++
        String.join (List.zipWith
          (fun p ch => ContextManager.exportBlock p.1 ch.title p.2)
          exportContext.completed_chapters.enum
          exportContext.outline.chapters))) :=
  (C10_export_manuscript exportStore exportContext rfl).1 (by decide)
